import Mathlib

/-!
Verification of the task-orchestrator core (Cloudflare worker template):
a shallow embedding of the TaskInstance, LoadBalancer, ServerRegistry and
ServerInstance durable objects, together with theorems about the task
lifecycle, the stats notifications, server selection, weights and the
health score.  Cross-actor calls (LoadBalancer.selectServer,
ServerInstance.executeTask, registry answers, the random draw) are modelled
as explicit inputs of the corresponding operation; storage writes and the
in-memory fields they mirror are merged into one state record.
-/

namespace Orch

/-- Task lifecycle status (src/types/index.ts, TaskStatus). -/
inductive TStatus where
  | PENDING
  | PROCESSING
  | COMPLETED
  | FAILED
  | TIMEOUT
  | CANCELLED
deriving DecidableEq

/-- Task request (src/types/index.ts, TaskRequest); the arbitrary JSON payload is
kept opaque as a string. -/
structure TaskRequest where
  type : String := ""
  priority : Option Int := none
  payload : String := ""
  capabilities : Option (List String) := none
  async : Option Bool := none
deriving DecidableEq

/-- One retry attempt record (src/types/index.ts, TaskAttempt). -/
structure TaskAttempt where
  attemptNumber : Nat
  startedAt : Nat
  previousStatus : Option TStatus := none
  previousError : Option String := none
deriving DecidableEq

/-- A task (src/types/index.ts, Task); result is opaque JSON kept as a string. -/
structure Task where
  id : String
  status : TStatus
  request : TaskRequest := {}
  result : Option String := none
  serverId : Option String := none
  progress : Option Nat := none
  error : Option String := none
  createdAt : Nat := 0
  updatedAt : Nat := 0
  attempts : List TaskAttempt := []
deriving DecidableEq

/-- A task update (src/types/index.ts, TaskUpdate). -/
structure TaskUpdate where
  status : TStatus
  result : Option String := none
  progress : Option Nat := none
  error : Option String := none
deriving DecidableEq

/-- A complete event sent to the StatsAggregator (src/types/index.ts,
TaskCompleteEvent).  The source reads the server id with a non-null
assertion, but at runtime it may be absent, hence the Option. -/
structure TaskCompleteEvent where
  taskId : String
  serverId : Option String
  success : Bool
  duration : Nat
  retries : Nat
deriving DecidableEq

/-- State of one TaskInstanceDO.  task and retryCount are the in-memory
fields (mirrored to storage on every mutation); createdAtKey is the
createdAt storage key read back by the alarm handler; events is the
ghost log of recordTaskComplete calls made so far. -/
structure TaskInstanceState where
  task : Option Task := none
  retryCount : Nat := 0
  createdAtKey : Option Nat := none
  events : List TaskCompleteEvent := []
deriving DecidableEq

def MAX_RETRIES : Nat := 3
def TASK_TIMEOUT : Nat := 3600000
def CLEANUP_DELAY : Nat := 300000

/-- isTaskComplete (TaskInstanceDO.ts 317-319). -/
def isTaskComplete : TStatus → Bool
  | .COMPLETED | .FAILED | .TIMEOUT | .CANCELLED => true
  | _ => false

/-- Terminal statuses, as the glossary of the design names them. -/
def isTerminalStatus (st : TStatus) : Bool := isTaskComplete st

/-- isRetryableStatus (TaskInstanceDO.ts 321-323). -/
def isRetryableStatus : TStatus → Bool
  | .FAILED | .TIMEOUT => true
  | _ => false

/-- notifyCompletion (TaskInstanceDO.ts 284-300): appends one complete event
built from the current task and retry counter. -/
def notifyCompletion (now : Nat) (s : TaskInstanceState) : TaskInstanceState :=
  match s.task with
  | none => s
  | some t =>
    { s with
      events := s.events ++
        [{ taskId := t.id
           serverId := t.serverId
           success := t.status == .COMPLETED
           duration := now - t.createdAt
           retries := s.retryCount }] }

/-- assignAndExecute (TaskInstanceDO.ts 243-281).  sel is the id the
LoadBalancer returned; execOk says whether executeTask returned without
throwing.  Result is the new state and whether the whole call succeeded:
a null selection throws before any mutation, while an executeTask error
throws after the task was already marked PROCESSING. -/
def assignAndExecute (sel : Option String) (execOk : Bool)
    (s : TaskInstanceState) : TaskInstanceState × Bool :=
  match s.task with
  | none => (s, false)
  | some t =>
    match sel with
    | none => (s, false)
    | some sid =>
      ({ s with task := some { t with serverId := some sid, status := .PROCESSING } },
       execOk)

/-- waitForCompletion (TaskInstanceDO.ts 326-350), state effect of the
synchronous wait: timedOut models the 30 s bound elapsing before a
terminal status was observed, in which case status and error are set
(updatedAt is not touched by the source there). -/
def waitForCompletion (timedOut : Bool) (s : TaskInstanceState) : TaskInstanceState :=
  match s.task with
  | none => s
  | some t =>
    if isTaskComplete t.status then s
    else if timedOut then
      { s with task := some { t with status := .TIMEOUT
                                     error := some "Synchronous task timeout" } }
    else s

/-- createTask (TaskInstanceDO.ts 43-91).  execErr is the message of the
backend error when executeTask throws. -/
def createTask (request : TaskRequest) (taskId : String) (now : Nat)
    (sel : Option String) (execOk : Bool) (syncTimedOut : Bool) (execErr : String)
    (s : TaskInstanceState) : TaskInstanceState :=
  match s.task with
  | some _ => s
  | none =>
    let t : Task := { id := taskId
                      status := .PENDING
                      request := request
                      createdAt := now
                      updatedAt := now }
    let s1 : TaskInstanceState :=
      { s with task := some t
               retryCount := 0
               createdAtKey := some now }
    let r := assignAndExecute sel execOk s1
    if r.2 then
      if request.async = some true then r.1
      else waitForCompletion syncTimedOut r.1
    else
      match r.1.task with
      | none => r.1
      | some t2 =>
        { r.1 with
          task := some { t2 with
            status := .FAILED
            error := some (match sel with
                           | none => "No available servers"
                           | some _ => execErr) } }

/-- updateTask (TaskInstanceDO.ts 111-142): allowed only from PROCESSING;
replaces status, result, progress and error wholesale, stamps updatedAt,
and notifies completion when the new status is terminal. -/
def updateTask (u : TaskUpdate) (now : Nat) (s : TaskInstanceState) : TaskInstanceState :=
  match s.task with
  | none => s
  | some t =>
    if t.status = .PROCESSING then
      let s1 : TaskInstanceState :=
        { s with task := some { t with status := u.status
                                       result := u.result
                                       progress := u.progress
                                       error := u.error
                                       updatedAt := now } }
      if isTaskComplete u.status then notifyCompletion now s1 else s1
    else s

/-- retry (TaskInstanceDO.ts 144-182).  Returns the new state and the
boolean result of the call. -/
def retryRun (now : Nat) (sel : Option String) (execOk : Bool)
    (s : TaskInstanceState) : TaskInstanceState × Bool :=
  match s.task with
  | none => (s, false)
  | some t =>
    if MAX_RETRIES ≤ s.retryCount then (s, false)
    else if isRetryableStatus t.status then
      let rc := s.retryCount + 1
      let t1 : Task := { t with
        attempts := t.attempts ++
          [{ attemptNumber := rc
             startedAt := now
             previousStatus := some t.status
             previousError := t.error }]
        status := .PENDING
        error := none
        updatedAt := now }
      assignAndExecute sel execOk { s with task := some t1, retryCount := rc }
    else (s, false)

/-- cancel (TaskInstanceDO.ts 184-201): refused on terminal tasks, else sets
CANCELLED and notifies completion. -/
def cancel (now : Nat) (s : TaskInstanceState) : TaskInstanceState :=
  match s.task with
  | none => s
  | some t =>
    if isTaskComplete t.status then s
    else notifyCompletion now
      { s with task := some { t with status := .CANCELLED, updatedAt := now } }

/-- alarm (TaskInstanceDO.ts 204-240): timeout branch (PROCESSING task whose
creation time has aged past TASK_TIMEOUT) marks TIMEOUT, attempts a retry
and notifies completion when the retry reports failure; cleanup branch
(terminal task older than CLEANUP_DELAY) erases storage, which the model
reflects by dropping the createdAt key (the in-memory task field is not
reset by the source). -/
def alarmTask (now : Nat) (sel : Option String) (execOk : Bool)
    (s : TaskInstanceState) : TaskInstanceState :=
  match s.task with
  | none => s
  | some t =>
    if t.status = .PROCESSING then
      match s.createdAtKey with
      | some c =>
        if TASK_TIMEOUT ≤ now - c then
          let s1 : TaskInstanceState :=
            { s with task := some { t with status := .TIMEOUT
                                           error := some "Task execution timeout"
                                           updatedAt := now } }
          let r := retryRun now sel execOk s1
          if r.2 then r.1 else notifyCompletion now r.1
        else s
      | none => s
    else
      if isTaskComplete t.status ∧ CLEANUP_DELAY ≤ now - t.updatedAt then
        { s with createdAtKey := none }
      else s

/-- The operations of one TaskInstanceDO, with their cross-actor inputs. -/
inductive TaskOp where
  | createTask (request : TaskRequest) (taskId : String) (now : Nat)
      (sel : Option String) (execOk : Bool) (syncTimedOut : Bool) (execErr : String)
  | updateTask (u : TaskUpdate) (now : Nat)
  | retry (now : Nat) (sel : Option String) (execOk : Bool)
  | cancel (now : Nat)
  | alarm (now : Nat) (sel : Option String) (execOk : Bool)

def applyOp : TaskOp → TaskInstanceState → TaskInstanceState
  | .createTask rq tid now sel ex st err, s => createTask rq tid now sel ex st err s
  | .updateTask u now, s => updateTask u now s
  | .retry now sel ex, s => (retryRun now sel ex s).1
  | .cancel now, s => cancel now s
  | .alarm now sel ex, s => alarmTask now sel ex s

/-- The per-operation status transitions the code actually permits; the
before-status none stands for a not-yet-created task. -/
def statusStep : Option TStatus → TStatus → Bool
  | none, a => a == .PROCESSING || a == .FAILED || a == .TIMEOUT
  | some .PENDING, a => a == .PENDING || a == .CANCELLED
  | some .PROCESSING, _ => true
  | some .FAILED, a => a == .FAILED || a == .PENDING || a == .PROCESSING
  | some .TIMEOUT, a => a == .TIMEOUT || a == .PENDING || a == .PROCESSING
  | some .COMPLETED, a => a == .COMPLETED
  | some .CANCELLED, a => a == .CANCELLED

/-- JavaScript x || y on numbers: the fallback fires exactly when x is 0
(or absent, which callers encode as 0 or an Option). -/
def jsOrNat (a b : Nat) : Nat := if a = 0 then b else a

def jsOrInt (a b : Int) : Int := if a = 0 then b else a

def jsOrRat (a b : Rat) : Rat := if a = 0 then b else a

/-- Math.round on the values this code produces: floor of x + 1/2. -/
def jsRound (q : Rat) : Int := (q + 1/2).floor

/-- Insertion-ordered map semantics of a JavaScript Map, as a list of
key/value pairs: set updates in place or appends, get is first lookup. -/
def alGet {α : Type} (m : List (String × α)) (k : String) : Option α :=
  (m.find? (fun p => p.1 == k)).map (fun p => p.2)

def alSet {α : Type} (m : List (String × α)) (k : String) (v : α) : List (String × α) :=
  if (m.find? (fun p => p.1 == k)).isSome then
    m.map (fun p => if p.1 == k then (k, v) else p)
  else m ++ [(k, v)]

/-- Insertion-ordered JavaScript Set over strings. -/
def setAdd (l : List String) (k : String) : List String :=
  if k ∈ l then l else l ++ [k]

def setRemove (l : List String) (k : String) : List String :=
  l.filter (fun x => x != k)

/-- Load balancing algorithms (src/types/index.ts, LoadBalanceAlgorithm). -/
inductive LBAlgorithm where
  | roundRobin
  | weightedRoundRobin
  | leastConnections
  | responseTime
  | random
deriving DecidableEq

/-- Metrics snapshot cached per server (src/types/index.ts, ServerMetrics);
JavaScript numbers are modelled as rationals. -/
structure ServerMetrics where
  tasksProcessed : Nat := 0
  successCount : Nat := 0
  failureCount : Nat := 0
  successRate : Rat := 0
  averageResponseTime : Rat := 0
  totalDuration : Rat := 0
  healthScore : Int := 100
  activeTasks : Nat := 0
  status : String := "online"
  healthy : Bool := true
  capabilities : Option (List String) := none
  maxCapacity : Nat := 10
  taskCompleted : Option Bool := none
  lastUpdate : Option Nat := none
deriving DecidableEq

/-- Selection criteria (src/types/index.ts, SelectionCriteria). -/
structure SelectionCriteria where
  taskType : Option String := none
  priority : Option Int := none
  requiredCapabilities : Option (List String) := none
deriving DecidableEq

/-- The projection of a registry ServerInfo that the LoadBalancer reads
(id, config.capabilities, config.maxConcurrent). -/
structure RegServer where
  id : String
  capabilities : Option (List String) := none
  maxConcurrent : Nat := 1
deriving DecidableEq

/-- State of the LoadBalancerDO (LoadBalancerDO.ts 12-20). -/
structure LBState where
  algorithm : LBAlgorithm := .weightedRoundRobin
  serverWeights : List (String × Int) := []
  serverLoads : List (String × Nat) := []
  serverMetrics : List (String × ServerMetrics) := []
  roundRobinIndex : Nat := 0
  healthyServers : List String := []
deriving DecidableEq

/-- calculateWeight (LoadBalancerDO.ts 250-255): note the || fallbacks,
which replace a zero success rate by 0 and a zero average response time
by 10000 ms. -/
def calculateWeight (m : ServerMetrics) : Int :=
  let successWeight : Rat := jsOrRat m.successRate 0 * 10
  let responseWeight : Rat := max 0 (10 - jsOrRat m.averageResponseTime 10000 / 1000)
  jsRound ((successWeight + responseWeight) / 2)

/-- Modelled from the spec (section 4.3, weight formula), for comparison with
calculateWeight: round of (successRate x 10 + max(0, 10 - avgRt/1000)) / 2. -/
def calculateWeightSpec (successRate avgRt : Rat) : Int :=
  jsRound ((successRate * 10 + max 0 (10 - avgRt / 1000)) / 2)

/-- The metrics record refreshServerList installs for a newly seen server
(LoadBalancerDO.ts 283-297). -/
def initMetricsFor (rs : RegServer) (now : Nat) : ServerMetrics :=
  { tasksProcessed := 0
    successCount := 0
    failureCount := 0
    successRate := 100
    averageResponseTime := 0
    totalDuration := 0
    healthScore := 100
    activeTasks := 0
    status := "online"
    healthy := true
    capabilities := some (rs.capabilities.getD [])
    maxCapacity := jsOrNat rs.maxConcurrent 10
    taskCompleted := none
    lastUpdate := some now }

/-- The loop body of refreshServerList (LoadBalancerDO.ts 276-299): add the
server to the healthy set and initialize its metrics when unseen. -/
def refreshStep (now : Nat) (st : LBState) (rs : RegServer) : LBState :=
  let st1 := { st with healthyServers := setAdd st.healthyServers rs.id }
  if (alGet st1.serverMetrics rs.id).isSome then st1
  else { st1 with serverMetrics := alSet st1.serverMetrics rs.id (initMetricsFor rs now) }

/-- refreshServerList (LoadBalancerDO.ts 265-309): rebuilds the healthy set
from the registry answer, initializes metrics for unseen servers, then
deletes weights, loads and metrics for every weight key that is no longer
healthy. -/
def refreshServerList (regServers : List RegServer) (now : Nat) (lb : LBState) : LBState :=
  let afterAdd := regServers.foldl (refreshStep now) { lb with healthyServers := [] }
  let staleKeys := (afterAdd.serverWeights.map (fun p => p.1)).filter
    (fun k => !afterAdd.healthyServers.contains k)
  { afterAdd with
    serverWeights := afterAdd.serverWeights.filter
      (fun p => afterAdd.healthyServers.contains p.1)
    serverLoads := afterAdd.serverLoads.filter (fun p => !staleKeys.contains p.1)
    serverMetrics := afterAdd.serverMetrics.filter (fun p => !staleKeys.contains p.1) }

/-- The capability check inside selectServer's filter (LoadBalancerDO.ts
70-78): absent cached capabilities fail every required capability. -/
def capabilityOk (criteria : SelectionCriteria) (m : ServerMetrics) : Bool :=
  match criteria.requiredCapabilities with
  | none => true
  | some req => req.all (fun c =>
      match m.capabilities with
      | some caps => caps.contains c
      | none => false)

/-- One candidate passes selectServer's filter (LoadBalancerDO.ts 54-82):
metrics present, below capacity, capabilities match. -/
def serverAvailable (lb : LBState) (criteria : SelectionCriteria) (sid : String) : Bool :=
  match alGet lb.serverMetrics sid with
  | none => false
  | some m =>
    if m.maxCapacity ≤ m.activeTasks then false
    else capabilityOk criteria m

def availableServers (lb : LBState) (criteria : SelectionCriteria) : List String :=
  lb.healthyServers.filter (serverAvailable lb criteria)

/-- The effective weight used when expanding the weighted list
(LoadBalancerDO.ts 203): this.serverWeights.get(serverId) || 1. -/
def weightOf (lb : LBState) (sid : String) : Int :=
  jsOrInt ((alGet lb.serverWeights sid).getD 1) 1

/-- The expanded list of weightedRoundRobinSelect (LoadBalancerDO.ts
200-207): each server repeated its effective weight many times. -/
def weightedListOf (lb : LBState) (servers : List String) : List String :=
  servers.flatMap (fun sid => List.replicate (weightOf lb sid).toNat sid)

/-- weightedRoundRobinSelect (LoadBalancerDO.ts 199-213). -/
def weightedRoundRobinSelect (lb : LBState) (servers : List String) : LBState × String :=
  let wl := weightedListOf lb servers
  if wl = [] then (lb, servers.headD "")
  else
    let idx := (lb.roundRobinIndex + 1) % wl.length
    ({ lb with roundRobinIndex := idx }, wl.getD idx "")

/-- leastConnectionsSelect (LoadBalancerDO.ts 215-228); the none accumulator
plays Infinity. -/
def leastConnectionsSelect (lb : LBState) (servers : List String) : String :=
  (servers.foldl (fun acc sid =>
      let load := (alGet lb.serverLoads sid).getD 0
      match acc.1 with
      | none => (some load, sid)
      | some m => if load < m then (some load, sid) else acc)
    ((none : Option Nat), servers.headD "")).2

/-- responseTimeSelect (LoadBalancerDO.ts 230-244); missing metrics or a
zero average response time rank as Infinity through the || fallback. -/
def responseTimeSelect (lb : LBState) (servers : List String) : String :=
  (servers.foldl (fun acc sid =>
      let rt : Option Rat :=
        match alGet lb.serverMetrics sid with
        | none => none
        | some m => if m.averageResponseTime = 0 then none else some m.averageResponseTime
      match acc.1, rt with
      | _, none => acc
      | none, some r => (some r, sid)
      | some mn, some r => if r < mn then (some r, sid) else acc)
    ((none : Option Rat), servers.headD "")).2

/-- randomSelect (LoadBalancerDO.ts 246-248); rand models the random draw,
reduced modulo the candidate count exactly as floor(random * length)
ranges over it. -/
def randomSelect (servers : List String) (rand : Nat) : String :=
  servers.getD (rand % servers.length) ""

/-- The algorithm switch of selectServer (LoadBalancerDO.ts 92-105): note
that round-robin falls through to the default random branch. -/
def dispatchAlgorithm (lb : LBState) (avail : List String) (rand : Nat) : LBState × String :=
  match lb.algorithm with
  | .weightedRoundRobin => weightedRoundRobinSelect lb avail
  | .leastConnections => (lb, leastConnectionsSelect lb avail)
  | .responseTime => (lb, responseTimeSelect lb avail)
  | _ => (lb, randomSelect avail rand)

/-- selectServer (LoadBalancerDO.ts 43-118): refresh, filter, dispatch on
the algorithm, bump the load of the choice. -/
def selectServer (criteria : SelectionCriteria) (regServers : List RegServer)
    (now : Nat) (rand : Nat) (lb : LBState) : LBState × Option String :=
  let lb1 := refreshServerList regServers now lb
  let avail := availableServers lb1 criteria
  if avail = [] then (lb1, none)
  else
    let picked := dispatchAlgorithm lb1 avail rand
    let cur := (alGet picked.1.serverLoads picked.2).getD 0
    ({ picked.1 with serverLoads := alSet picked.1.serverLoads picked.2 (cur + 1) },
     some picked.2)

/-- updateServerMetrics (LoadBalancerDO.ts 120-147): cache the snapshot,
recompute the weight, add to or drop from the healthy set by the healthy
flag, and decrement the load on taskCompleted. -/
def updateServerMetrics (sid : String) (m : ServerMetrics) (now : Nat)
    (lb : LBState) : LBState :=
  let lb1 := { lb with
    serverMetrics := alSet lb.serverMetrics sid { m with lastUpdate := some now }
    serverWeights := alSet lb.serverWeights sid (calculateWeight m) }
  let lb2 :=
    if m.healthy then { lb1 with healthyServers := setAdd lb1.healthyServers sid }
    else { lb1 with healthyServers := setRemove lb1.healthyServers sid }
  match m.taskCompleted with
  | some true =>
    let load := (alGet lb2.serverLoads sid).getD 0
    { lb2 with serverLoads := alSet lb2.serverLoads sid (load - 1) }
  | _ => lb2

/-- markServerUnhealthy (LoadBalancerDO.ts 149-159). -/
def markServerUnhealthy (sid : String) (lb : LBState) : LBState :=
  { lb with healthyServers := setRemove lb.healthyServers sid
            serverWeights := alSet lb.serverWeights sid 0 }

/-- The loop body of rebalance (LoadBalancerDO.ts 172-183). -/
def rebalanceStep (st : LBState) (rs : RegServer) : LBState :=
  let st1 := { st with healthyServers := setAdd st.healthyServers rs.id }
  match alGet st1.serverMetrics rs.id with
  | some m => { st1 with serverWeights := alSet st1.serverWeights rs.id (calculateWeight m) }
  | none => { st1 with serverWeights := alSet st1.serverWeights rs.id 1 }

/-- rebalance (LoadBalancerDO.ts 161-190): reset the healthy set from the
registry answer and recompute every weight (1 for unseen servers). -/
def rebalance (regServers : List RegServer) (lb : LBState) : LBState :=
  regServers.foldl rebalanceStep { lb with healthyServers := [] }

/-- Registration record held by the ServerRegistryDO, reduced to the fields
the load balancing claims read. -/
structure RegServerInfo where
  capabilities : Option (List String) := none
  maxConcurrent : Nat := 1
  status : String := "online"
  lastHeartbeat : Nat := 0
deriving DecidableEq

/-- State of the ServerRegistryDO (server registry, servers map keyed by id). -/
structure RegistryState where
  servers : List (String × RegServerInfo) := []
deriving DecidableEq

def STALE_THRESHOLD : Nat := 300000

def registeredIds (r : RegistryState) : List String := r.servers.map (fun p => p.1)

/-- getAvailableServers with the status=online filter (ServerRegistryDO
134-188): stale online servers are reclassified offline first, then only
online ones are returned, projected to what the LoadBalancer reads. -/
def getOnlineServers (r : RegistryState) (now : Nat) : List RegServer :=
  (r.servers.filter (fun p =>
      p.2.status == "online" && !(decide (STALE_THRESHOLD < now - p.2.lastHeartbeat)))).map
    (fun p => { id := p.1
                capabilities := p.2.capabilities
                maxConcurrent := p.2.maxConcurrent })

/-- Cumulative metrics of one ServerInstanceDO (part of ServerMetrics that
updateMetrics maintains). -/
structure SIMetrics where
  tasksProcessed : Nat := 0
  successCount : Nat := 0
  failureCount : Nat := 0
  successRate : Rat := 0
  averageResponseTime : Rat := 0
  totalDuration : Rat := 0
deriving DecidableEq

/-- State of one ServerInstanceDO (ServerInstanceDO fields, config reduced
to presence plus maxConcurrent). -/
structure SIState where
  hasConfig : Bool := false
  maxConcurrent : Nat := 10
  status : String := "initializing"
  healthScore : Int := 100
  consecutiveFailures : Nat := 0
  consecutiveSuccesses : Nat := 0
  checkInterval : Rat := 10000
  lastActivityTime : Nat := 0
  activeTasks : List String := []
  metrics : SIMetrics := {}
deriving DecidableEq

def MIN_CHECK_INTERVAL : Rat := 5000
def MAX_CHECK_INTERVAL : Rat := 60000
def MAX_IDLE_TIME : Nat := 3600000

def initialSIState : SIState := {}

/-- handleHealthSuccess (ServerInstance 265-293): reset failures, bump
successes, health score += 5 capped at 100, degraded flips online after 3
successes, interval stretched by 1.2 up to the max. -/
def handleHealthSuccess (s : SIState) : SIState :=
  { s with consecutiveFailures := 0
           consecutiveSuccesses := s.consecutiveSuccesses + 1
           healthScore := min 100 (s.healthScore + 5)
           status := if s.status = "degraded" ∧ 3 ≤ s.consecutiveSuccesses + 1
                     then "online" else s.status
           checkInterval := min MAX_CHECK_INTERVAL (s.checkInterval * (12/10 : Rat)) }

/-- handleHealthFailure (ServerInstance 295-316): reset successes, bump
failures, health score -= 10 floored at 0, offline after 3 failures else
degraded, interval shrunk by 1.5 down to the min. -/
def handleHealthFailure (s : SIState) : SIState :=
  { s with consecutiveSuccesses := 0
           consecutiveFailures := s.consecutiveFailures + 1
           healthScore := max 0 (s.healthScore - 10)
           status := if 3 ≤ s.consecutiveFailures + 1 then "offline" else "degraded"
           checkInterval := max MIN_CHECK_INTERVAL (s.checkInterval / (15/10 : Rat)) }

/-- updateMetrics (ServerInstance 358-369). -/
def updateMetricsSI (success : Bool) (dur : Nat) (m : SIMetrics) : SIMetrics :=
  let tp := m.tasksProcessed + 1
  let sc := m.successCount + (if success then 1 else 0)
  { m with tasksProcessed := tp
           successCount := sc
           failureCount := m.failureCount + (if success then 0 else 1)
           totalDuration := m.totalDuration + (dur : Rat)
           successRate := (sc : Rat) / (tp : Rat)
           averageResponseTime := (m.totalDuration + (dur : Rat)) / (tp : Rat) }

/-- The operations of one ServerInstanceDO, with their external inputs:
backendOk is the outcome of the predict call, checkOk the outcome of the
health probe (2xx and matching server id). -/
inductive SIOp where
  | initServer (maxConcurrent : Nat) (now : Nat)
  | executeTask (taskId : String) (now : Nat) (backendOk : Bool) (dur : Nat)
  | healthCheck (now : Nat) (checkOk : Bool)
  | setMaintenanceMode (enabled : Bool) (now : Nat)
  | shutdown
  | alarm (now : Nat) (checkOk : Bool)

/-- State effect of each ServerInstanceDO operation (initialize 66-87,
executeTask 89-146, performHealthCheck 148-184, setMaintenanceMode
198-216, shutdown 218-234, alarm 237-263). -/
def applySI : SIOp → SIState → SIState
  | .initServer mc now, s =>
    { s with hasConfig := true
             maxConcurrent := mc
             status := "online"
             lastActivityTime := now }
  | .executeTask tid now ok dur, s =>
    let s0 := if s.hasConfig ∧ s.status = "initializing"
              then { s with status := "online" } else s
    if s0.status ≠ "online" then s0
    else
      let cap := if s0.hasConfig then jsOrNat s0.maxConcurrent 10 else 10
      if cap ≤ s0.activeTasks.length then s0
      else
        { s0 with activeTasks := setRemove (setAdd s0.activeTasks tid) tid
                  lastActivityTime := now
                  metrics := updateMetricsSI ok dur s0.metrics }
  | .healthCheck _ ok, s =>
    if s.hasConfig then (if ok then handleHealthSuccess s else handleHealthFailure s)
    else s
  | .setMaintenanceMode enabled now, s =>
    { s with status := if enabled then "maintenance" else "online"
             lastActivityTime := now }
  | .shutdown, s => { s with status := "offline" }
  | .alarm now ok, s =>
    if ¬ s.hasConfig then s
    else if MAX_IDLE_TIME < now - s.lastActivityTime ∧ s.activeTasks = [] then
      { s with status := "offline" }
    else
      if ok then handleHealthSuccess s else handleHealthFailure s

theorem statusStep_refl (σ : TStatus) : statusStep (some σ) σ = true := by
  cases σ <;> rfl

theorem notifyCompletion_task (now : Nat) (s : TaskInstanceState) :
    (notifyCompletion now s).task = s.task := by
  unfold notifyCompletion
  cases h : s.task <;> simp [h]

/-- C1 (amended).  Every operation of a TaskInstance moves the task status
along the following per-operation relation: creation ends in PROCESSING,
FAILED (assignment failure) or TIMEOUT (synchronous wait expiry); a task
already PENDING can only stay or be CANCELLED; from PROCESSING, updateTask
may install any status; retry moves FAILED or TIMEOUT back to PENDING or
PROCESSING; COMPLETED and CANCELLED are immutable. -/
theorem task_status_transitions (op : TaskOp) (s : TaskInstanceState) (t2 : Task)
    (h : (applyOp op s).task = some t2) :
    statusStep (s.task.map Task.status) t2.status = true := by
  cases op with
  | createTask rq tid now sel ex st err =>
    simp only [applyOp] at h
    unfold createTask at h
    cases hs : s.task with
    | some t =>
      simp [hs] at h
      subst h
      exact statusStep_refl _
    | none =>
      cases sel with
      | none =>
        simp [hs, assignAndExecute] at h
        subst h
        simp [hs, statusStep]
      | some sid =>
        cases ex with
        | false =>
          simp [hs, assignAndExecute] at h
          subst h
          simp [hs, statusStep]
        | true =>
          by_cases ha : rq.async = some true
          · simp [hs, assignAndExecute, ha] at h
            subst h
            simp [hs, statusStep]
          · cases st with
            | true =>
              simp [hs, assignAndExecute, ha, waitForCompletion, isTaskComplete] at h
              subst h
              simp [hs, statusStep]
            | false =>
              simp [hs, assignAndExecute, ha, waitForCompletion, isTaskComplete] at h
              subst h
              simp [hs, statusStep]
  | updateTask u now =>
    simp only [applyOp] at h
    unfold updateTask at h
    cases hs : s.task with
    | none => simp [hs] at h
    | some t =>
      by_cases hp : t.status = .PROCESSING
      · show statusStep (some t.status) _ = true
        rw [hp]
        rfl
      · simp [hs, hp] at h
        subst h
        exact statusStep_refl _
  | retry now sel ex =>
    simp only [applyOp] at h
    unfold retryRun at h
    cases hs : s.task with
    | none => simp [hs] at h
    | some t =>
      by_cases hm : MAX_RETRIES ≤ s.retryCount
      · simp [hs, hm] at h
        subst h
        exact statusStep_refl _
      · by_cases hr : isRetryableStatus t.status = true
        · cases sel with
          | none =>
            simp [hs, hm, hr, assignAndExecute] at h
            subst h
            show statusStep (some t.status) _ = true
            cases hts : t.status <;> rw [hts] at hr <;>
              first
              | rfl
              | simp [isRetryableStatus] at hr
          | some sid =>
            simp [hs, hm, hr, assignAndExecute] at h
            subst h
            show statusStep (some t.status) _ = true
            cases hts : t.status <;> rw [hts] at hr <;>
              first
              | rfl
              | simp [isRetryableStatus] at hr
        · simp [hs, hm, hr] at h
          subst h
          exact statusStep_refl _
  | cancel now =>
    simp only [applyOp] at h
    unfold cancel at h
    cases hs : s.task with
    | none => simp [hs] at h
    | some t =>
      by_cases hc : isTaskComplete t.status = true
      · simp [hs, hc] at h
        subst h
        exact statusStep_refl _
      · simp [hs, hc, notifyCompletion_task] at h
        subst h
        show statusStep (some t.status) _ = true
        cases hts : t.status <;> rw [hts] at hc <;>
          first
          | rfl
          | simp [isTaskComplete] at hc
  | alarm now sel ex =>
    simp only [applyOp] at h
    unfold alarmTask at h
    cases hs : s.task with
    | none => simp [hs] at h
    | some t =>
      by_cases hp : t.status = .PROCESSING
      · show statusStep (some t.status) _ = true
        rw [hp]
        rfl
      · by_cases hc : isTaskComplete t.status = true ∧ CLEANUP_DELAY ≤ now - t.updatedAt
        · simp [hs, hp, hc] at h
          subst h
          exact statusStep_refl _
        · simp [hs, hp, hc] at h
          subst h
          exact statusStep_refl _

def cwTaskState : TaskInstanceState := { task := some { id := "t1", status := .PENDING } }

def cwCancelled : Task := { id := "t1", status := .CANCELLED, updatedAt := 7 }

/-- Witness for the amended C1 theorem: cancelling a fresh PENDING task is a
permitted step. -/
theorem task_status_transitions_witness :
    (applyOp (.cancel 7) cwTaskState).task = some cwCancelled ∧
    statusStep (cwTaskState.task.map Task.status) cwCancelled.status = true :=
  ⟨by decide, task_status_transitions (.cancel 7) cwTaskState cwCancelled (by decide)⟩

def cxRetryState : TaskInstanceState :=
  { task := some { id := "t1", status := .FAILED }, retryCount := 0 }

/-- C1 counterexample: retry on a FAILED task (a terminal status) with no
server available moves the stored status back to PENDING, so terminal
statuses are not immutable as claimed. -/
theorem retry_leaves_terminal :
    isTerminalStatus .FAILED = true ∧
    cxRetryState.task.map Task.status = some .FAILED ∧
    (applyOp (.retry 5 none true) cxRetryState).task.map Task.status = some .PENDING ∧
    isTerminalStatus .PENDING = false := by
  refine ⟨rfl, rfl, ?_, rfl⟩
  decide

/-- C10.  updateTask on a PROCESSING task replaces result, progress and
error wholesale with the update fields (absent fields become none), sets
the new status and updatedAt, and leaves id, request, serverId, createdAt
and attempts unchanged. -/
theorem updateTask_frame (u : TaskUpdate) (now : Nat) (s : TaskInstanceState) (t : Task)
    (h1 : s.task = some t) (h2 : t.status = .PROCESSING) :
    ∃ t2, (updateTask u now s).task = some t2 ∧
      t2.status = u.status ∧ t2.result = u.result ∧ t2.progress = u.progress ∧
      t2.error = u.error ∧ t2.updatedAt = now ∧
      t2.id = t.id ∧ t2.request = t.request ∧ t2.serverId = t.serverId ∧
      t2.createdAt = t.createdAt ∧ t2.attempts = t.attempts := by
  refine ⟨{ t with status := u.status
                   result := u.result
                   progress := u.progress
                   error := u.error
                   updatedAt := now }, ?_, by simp_all⟩
  unfold updateTask
  simp only [h1, h2, reduceIte]
  by_cases hc : isTaskComplete u.status = true
  · rw [if_pos hc, notifyCompletion_task]
  · rw [if_neg hc]

def cwUpdState : TaskInstanceState := { task := some { id := "t2", status := .PROCESSING } }

/-- Witness for the C10 theorem at a concrete COMPLETED update. -/
theorem updateTask_frame_witness :
    cwUpdState.task = some { id := "t2", status := .PROCESSING } ∧
    ∃ t2, (updateTask { status := .COMPLETED, result := some "r" } 9 cwUpdState).task = some t2 ∧
      t2.status = .COMPLETED ∧ t2.result = some "r" ∧ t2.progress = none ∧
      t2.error = none ∧ t2.updatedAt = 9 ∧
      t2.id = "t2" ∧ t2.request = {} ∧ t2.serverId = none ∧
      t2.createdAt = 0 ∧ t2.attempts = [] :=
  ⟨rfl, updateTask_frame { status := .COMPLETED, result := some "r" } 9 cwUpdState
    { id := "t2", status := .PROCESSING } rfl rfl⟩

/-- The stored invariant of claim C4: the attempts list length always equals
the retry counter, which never exceeds MAX_RETRIES. -/
def taskInv (s : TaskInstanceState) : Prop :=
  (match s.task with
   | some t => t.attempts.length = s.retryCount
   | none => True) ∧ s.retryCount ≤ MAX_RETRIES

theorem notifyCompletion_retryCount (now : Nat) (s : TaskInstanceState) :
    (notifyCompletion now s).retryCount = s.retryCount := by
  unfold notifyCompletion
  cases h : s.task <;> simp [h]

theorem notifyCompletion_events_length (now : Nat) (s : TaskInstanceState) (t : Task)
    (h : s.task = some t) :
    (notifyCompletion now s).events.length = s.events.length + 1 := by
  unfold notifyCompletion
  simp [h]

theorem notifyCompletion_inv (now : Nat) (s : TaskInstanceState)
    (h : taskInv s) : taskInv (notifyCompletion now s) := by
  unfold taskInv at h ⊢
  rw [notifyCompletion_task, notifyCompletion_retryCount]
  exact h

theorem retryRun_inv (now : Nat) (sel : Option String) (ex : Bool) (s : TaskInstanceState)
    (h : taskInv s) : taskInv (retryRun now sel ex s).1 := by
  unfold retryRun
  cases hs : s.task with
  | none => simpa [hs] using h
  | some t =>
    by_cases hm : MAX_RETRIES ≤ s.retryCount
    · simpa [hs, hm] using h
    · by_cases hr : isRetryableStatus t.status = true
      · unfold taskInv at h
        rw [hs] at h
        obtain ⟨h1, h2⟩ := h
        cases sel with
        | none =>
          simp [hs, hm, hr, assignAndExecute, taskInv]
          omega
        | some sid =>
          simp [hs, hm, hr, assignAndExecute, taskInv]
          omega
      · simpa [hs, hm, hr] using h

/-- The task produced by a retry whose assignment succeeded on server sid. -/
def retriedTask (t : Task) (now rc : Nat) (sid : String) : Task :=
  { t with
    attempts := t.attempts ++
      [{ attemptNumber := rc
         startedAt := now
         previousStatus := some t.status
         previousError := t.error }]
    status := .PROCESSING
    error := none
    updatedAt := now
    serverId := some sid }

theorem alarmRetryBranch_inv (now : Nat) (sel : Option String) (ex : Bool)
    (s : TaskInstanceState) (h : taskInv s) :
    taskInv (if (retryRun now sel ex s).2 = true then (retryRun now sel ex s).1
             else notifyCompletion now (retryRun now sel ex s).1) := by
  by_cases hb : (retryRun now sel ex s).2 = true
  · simpa [hb] using retryRun_inv now sel ex s h
  · simp only [hb, if_false]
    exact notifyCompletion_inv now _ (retryRun_inv now sel ex s h)

/-- C4.  Every operation preserves the invariant that the stored attempts
list length equals the stored retry counter and that the counter stays at
most MAX_RETRIES; retry refuses once the counter has reached MAX_RETRIES;
a retry that returns true appends exactly one attempt record and
increments the counter by one. -/
theorem attempts_match_retryCount :
    (∀ op s, taskInv s → taskInv (applyOp op s))
    ∧ (∀ now sel ex s, MAX_RETRIES ≤ s.retryCount → (retryRun now sel ex s).2 = false)
    ∧ (∀ now sel ex s t, s.task = some t → (retryRun now sel ex s).2 = true →
        ∃ t2, (retryRun now sel ex s).1.task = some t2 ∧
          (retryRun now sel ex s).1.retryCount = s.retryCount + 1 ∧
          t2.attempts.length = t.attempts.length + 1) := by
  refine ⟨?_, ?_, ?_⟩
  · intro op s h
    cases op with
    | createTask rq tid now sel ex st err =>
      simp only [applyOp]
      unfold createTask
      cases hs : s.task with
      | some t => simpa [hs] using h
      | none =>
        cases sel with
        | none => simp [hs, assignAndExecute, taskInv]
        | some sid =>
          cases ex with
          | false => simp [hs, assignAndExecute, taskInv]
          | true =>
            by_cases ha : rq.async = some true
            · simp [hs, assignAndExecute, ha, taskInv]
            · cases st with
              | true =>
                simp [hs, assignAndExecute, ha, waitForCompletion, isTaskComplete, taskInv]
              | false =>
                simp [hs, assignAndExecute, ha, waitForCompletion, isTaskComplete, taskInv]
    | updateTask u now =>
      simp only [applyOp]
      unfold updateTask
      cases hs : s.task with
      | none => simpa [hs] using h
      | some t =>
        by_cases hp : t.status = .PROCESSING
        · unfold taskInv at h
          rw [hs] at h
          obtain ⟨h1, h2⟩ := h
          by_cases hc : isTaskComplete u.status = true
          · simp only [hs, hp, hc, reduceIte, if_true]
            apply notifyCompletion_inv
            simp [taskInv, h1, h2]
          · simp [hs, hp, hc, taskInv, h1, h2]
        · simpa [hs, hp] using h
    | retry now sel ex => exact retryRun_inv now sel ex s h
    | cancel now =>
      simp only [applyOp]
      unfold cancel
      cases hs : s.task with
      | none => simpa [hs] using h
      | some t =>
        by_cases hc : isTaskComplete t.status = true
        · simpa [hs, hc] using h
        · unfold taskInv at h
          rw [hs] at h
          obtain ⟨h1, h2⟩ := h
          simp only [hs, hc, Bool.false_eq_true, if_false]
          apply notifyCompletion_inv
          simp [taskInv, h1, h2]
    | alarm now sel ex =>
      simp only [applyOp]
      unfold alarmTask
      cases hs : s.task with
      | none => simpa [hs] using h
      | some t =>
        by_cases hp : t.status = .PROCESSING
        · cases hk : s.createdAtKey with
          | none => simpa [hs, hp, hk] using h
          | some c =>
            by_cases he : TASK_TIMEOUT ≤ now - c
            · simp only [hs, hp, hk, he, reduceIte, if_true]
              apply alarmRetryBranch_inv
              unfold taskInv at h ⊢
              rw [hs] at h
              simpa using h
            · simpa [hs, hp, hk, he] using h
        · by_cases hc : isTaskComplete t.status = true ∧ CLEANUP_DELAY ≤ now - t.updatedAt
          · unfold taskInv at h ⊢
            rw [hs] at h
            simpa [hs, hp, hc] using h
          · simpa [hs, hp, hc] using h
  · intro now sel ex s h
    unfold retryRun
    cases hs : s.task with
    | none => rfl
    | some t => simp [hs, h]
  · intro now sel ex s t hs hb
    by_cases hm : MAX_RETRIES ≤ s.retryCount
    · simp [retryRun, hs, hm] at hb
    · by_cases hr : isRetryableStatus t.status = true
      · cases sel with
        | none => simp [retryRun, hs, hm, hr, assignAndExecute] at hb
        | some sid =>
          refine ⟨retriedTask t now (s.retryCount + 1) sid, ?_, ?_, ?_⟩
          · simp [retryRun, hs, hm, hr, assignAndExecute, retriedTask]
          · simp [retryRun, hs, hm, hr, assignAndExecute]
          · simp [retriedTask]
      · simp [retryRun, hs, hm, hr] at hb

def cwRetryable : TaskInstanceState :=
  { task := some { id := "t3", status := .FAILED }, retryCount := 0 }

/-- Witness for the C4 theorem: the invariant is preserved by a concrete
retry, the refusal fires at a counter of 3, and a successful concrete
retry appends one attempt. -/
theorem attempts_match_retryCount_witness :
    (taskInv cwRetryable ∧ taskInv (applyOp (.retry 4 (some "s1") true) cwRetryable)) ∧
    (MAX_RETRIES ≤ 3 ∧ (retryRun 4 none true { cwRetryable with retryCount := 3 }).2 = false) ∧
    (cwRetryable.task = some { id := "t3", status := .FAILED } ∧
      (retryRun 4 (some "s1") true cwRetryable).2 = true ∧
      ∃ t2, (retryRun 4 (some "s1") true cwRetryable).1.task = some t2 ∧
        (retryRun 4 (some "s1") true cwRetryable).1.retryCount = cwRetryable.retryCount + 1 ∧
        t2.attempts.length =
          (Task.mk "t3" .FAILED {} none none none none 0 0 []).attempts.length + 1) :=
  ⟨⟨by constructor <;> simp [taskInv, cwRetryable, MAX_RETRIES],
    attempts_match_retryCount.1 (.retry 4 (some "s1") true) cwRetryable
      (by constructor <;> simp [taskInv, cwRetryable, MAX_RETRIES])⟩,
   ⟨by decide,
    attempts_match_retryCount.2.1 4 none true { cwRetryable with retryCount := 3 } (by decide)⟩,
   ⟨rfl, by decide,
    attempts_match_retryCount.2.2 4 (some "s1") true cwRetryable
      { id := "t3", status := .FAILED } rfl (by decide)⟩⟩


theorem retryRun_events (now : Nat) (sel : Option String) (ex : Bool)
    (s : TaskInstanceState) : (retryRun now sel ex s).1.events = s.events := by
  unfold retryRun
  cases hs : s.task with
  | none => rfl
  | some t =>
    by_cases hm : MAX_RETRIES ≤ s.retryCount
    · simp [hm]
    · by_cases hr : isRetryableStatus t.status = true
      · cases sel with
        | none => simp [hm, hr, assignAndExecute]
        | some sid => simp [hm, hr, assignAndExecute]
      · simp [hm, hr]

theorem retryRun_task_isSome (now : Nat) (sel : Option String) (ex : Bool)
    (s : TaskInstanceState) (t : Task) (hs : s.task = some t) :
    ∃ t2, (retryRun now sel ex s).1.task = some t2 := by
  unfold retryRun
  simp only [hs]
  by_cases hm : MAX_RETRIES ≤ s.retryCount
  · rw [if_pos hm]
    exact ⟨t, hs⟩
  · rw [if_neg hm]
    by_cases hr : isRetryableStatus t.status = true
    · rw [if_pos hr]
      cases sel with
      | none => exact ⟨_, rfl⟩
      | some sid => exact ⟨_, rfl⟩
    · rw [if_neg hr]
      exact ⟨t, hs⟩

theorem alarmRetryBranch_events (now : Nat) (sel : Option String) (ex : Bool)
    (s1 : TaskInstanceState) (t1 : Task) (hs : s1.task = some t1)
    (hr : isRetryableStatus t1.status = true) :
    (if (retryRun now sel ex s1).2 = true then (retryRun now sel ex s1).1
     else notifyCompletion now (retryRun now sel ex s1).1).events.length =
      s1.events.length +
        (if s1.retryCount < MAX_RETRIES ∧ sel ≠ none ∧ ex = true then 0 else 1) := by
  by_cases hm : MAX_RETRIES ≤ s1.retryCount
  · have hb : (retryRun now sel ex s1).2 = false := by
      simp [retryRun, hs, hm]
    rw [hb]
    simp only [Bool.false_eq_true, if_false]
    obtain ⟨t2, ht2⟩ := retryRun_task_isSome now sel ex s1 t1 hs
    rw [notifyCompletion_events_length now _ t2 ht2, retryRun_events]
    have hcond : ¬ (s1.retryCount < MAX_RETRIES ∧ sel ≠ none ∧ ex = true) := by
      intro hcon
      exact absurd hcon.1 (Nat.not_lt.mpr hm)
    simp [hcond]
  · have hm2 : s1.retryCount < MAX_RETRIES := Nat.not_le.mp hm
    cases sel with
    | none =>
      have hb : (retryRun now none ex s1).2 = false := by
        simp [retryRun, hs, hm, hr, assignAndExecute]
      rw [hb]
      simp only [Bool.false_eq_true, if_false]
      obtain ⟨t2, ht2⟩ := retryRun_task_isSome now none ex s1 t1 hs
      rw [notifyCompletion_events_length now _ t2 ht2, retryRun_events]
      simp
    | some sid =>
      cases ex with
      | true =>
        have hb : (retryRun now (some sid) true s1).2 = true := by
          simp [retryRun, hs, hm, hr, assignAndExecute]
        rw [hb]
        simp only [if_true]
        rw [retryRun_events]
        simp [hm2]
      | false =>
        have hb : (retryRun now (some sid) false s1).2 = false := by
          simp [retryRun, hs, hm, hr, assignAndExecute]
        rw [hb]
        simp only [Bool.false_eq_true, if_false]
        obtain ⟨t2, ht2⟩ := retryRun_task_isSome now (some sid) false s1 t1 hs
        rw [notifyCompletion_events_length now _ t2 ht2, retryRun_events]
        simp

/-- C2 (amended).  The complete-event production of each TaskInstance
operation: createTask and retry never emit an event — in particular the
createTask path whose server assignment fails leaves a terminal FAILED
task with zero events; updateTask emits exactly one event exactly when it
moves a PROCESSING task to a terminal status; cancel emits exactly one
event exactly when the task is non-terminal; the alarm timeout path emits
exactly one event when the inner retry fails and none when it succeeds,
and the alarm emits nothing otherwise. -/
theorem complete_event_counts :
    (∀ rq tid now sel ex st err s,
        (applyOp (.createTask rq tid now sel ex st err) s).events = s.events)
    ∧ (∀ now sel ex s, (applyOp (.retry now sel ex) s).events = s.events)
    ∧ (∀ u now s, s.task = none → (applyOp (.updateTask u now) s).events = s.events)
    ∧ (∀ u now s t, s.task = some t →
        (applyOp (.updateTask u now) s).events.length =
          s.events.length +
            (if t.status = .PROCESSING ∧ isTaskComplete u.status = true then 1 else 0))
    ∧ (∀ now s, s.task = none → (applyOp (.cancel now) s).events = s.events)
    ∧ (∀ now s t, s.task = some t →
        (applyOp (.cancel now) s).events.length =
          s.events.length + (if isTaskComplete t.status = true then 0 else 1))
    ∧ (∀ now sel ex s t, s.task = some t → t.status = .PROCESSING →
        (∀ c, s.createdAtKey = some c → now - c < TASK_TIMEOUT) →
        (applyOp (.alarm now sel ex) s).events = s.events)
    ∧ (∀ now sel ex s t c, s.task = some t → t.status = .PROCESSING →
        s.createdAtKey = some c → TASK_TIMEOUT ≤ now - c →
        (applyOp (.alarm now sel ex) s).events.length =
          s.events.length +
            (if s.retryCount < MAX_RETRIES ∧ sel ≠ none ∧ ex = true then 0 else 1))
    ∧ (∀ now sel ex s t, s.task = some t → t.status ≠ .PROCESSING →
        (applyOp (.alarm now sel ex) s).events = s.events)
    ∧ (∀ now sel ex s, s.task = none → (applyOp (.alarm now sel ex) s).events = s.events) := by
  refine ⟨?_, ?_, ?_, ?_, ?_, ?_, ?_, ?_, ?_, ?_⟩
  · intro rq tid now sel ex st err s
    simp only [applyOp]
    unfold createTask
    cases hs : s.task with
    | some t => rfl
    | none =>
      cases sel with
      | none => simp [assignAndExecute]
      | some sid =>
        cases ex with
        | false => simp [assignAndExecute]
        | true =>
          by_cases ha : rq.async = some true
          · simp [assignAndExecute, ha]
          · cases st with
            | true => simp [assignAndExecute, ha, waitForCompletion, isTaskComplete]
            | false => simp [assignAndExecute, ha, waitForCompletion, isTaskComplete]
  · intro now sel ex s
    exact retryRun_events now sel ex s
  · intro u now s hs
    simp [applyOp, updateTask, hs]
  · intro u now s t hs
    simp only [applyOp]
    unfold updateTask
    rw [hs]
    by_cases hp : t.status = .PROCESSING
    · by_cases hc : isTaskComplete u.status = true
      · simp only [hp, hc, reduceIte, if_true]
        rw [notifyCompletion_events_length now _ _ rfl]
        simp [hp, hc]
      · simp [hp, hc]
    · simp [hp]
  · intro now s hs
    simp [applyOp, cancel, hs]
  · intro now s t hs
    simp only [applyOp]
    unfold cancel
    rw [hs]
    by_cases hc : isTaskComplete t.status = true
    · simp [hc]
    · simp only [hc, Bool.false_eq_true, if_false]
      rw [notifyCompletion_events_length now _ _ rfl]
  · intro now sel ex s t hs hp hlt
    simp only [applyOp]
    unfold alarmTask
    rw [hs]
    cases hk : s.createdAtKey with
    | none => simp [hp, isTaskComplete]
    | some c =>
      have he : ¬ TASK_TIMEOUT ≤ now - c := by
        have := hlt c hk
        omega
      simp [hp, he, isTaskComplete]
  · intro now sel ex s t c hs hp hk he
    simp only [applyOp]
    unfold alarmTask
    rw [hs, hk]
    simp only [hp, he, reduceIte, if_true]
    exact alarmRetryBranch_events now sel ex _ _ rfl rfl
  · intro now sel ex s t hs hp
    simp only [applyOp]
    unfold alarmTask
    rw [hs]
    simp only [hp, reduceIte]
    by_cases hc : isTaskComplete t.status = true ∧ CLEANUP_DELAY ≤ now - t.updatedAt
    · simp [hp, hc]
    · simp [hp, hc]
  · intro now sel ex s hs
    simp [applyOp, alarmTask, hs]

def cwEventState : TaskInstanceState := { task := some { id := "t4", status := .PROCESSING } }

/-- Witness for the amended C2 theorem: a concrete terminal update emits
exactly one event and a concrete cancel on a PENDING task emits one. -/
theorem complete_event_counts_witness :
    (cwEventState.task = some { id := "t4", status := .PROCESSING } ∧
      (applyOp (.updateTask { status := .COMPLETED } 3) cwEventState).events.length =
        cwEventState.events.length +
          (if (Task.mk "t4" .PROCESSING {} none none none none 0 0 []).status = .PROCESSING ∧
              isTaskComplete .COMPLETED = true then 1 else 0)) ∧
    ((applyOp (.createTask {} "t5" 0 none true false "e") {}).events =
      ({} : TaskInstanceState).events) :=
  ⟨⟨rfl, complete_event_counts.2.2.2.1 { status := .COMPLETED } 3 cwEventState
      { id := "t4", status := .PROCESSING } rfl⟩,
   complete_event_counts.1 {} "t5" 0 none true false "e" {}⟩

def cxCreateFailed : TaskInstanceState :=
  applyOp (.createTask {} "t1" 0 none true false "e") {}

/-- C2 counterexample: a createTask whose server assignment fails (the
LoadBalancer returned null) leaves the task in the terminal FAILED status
yet emits zero complete events, so not every terminal transition produces
exactly one recordTaskComplete event. -/
theorem createTask_failed_no_event :
    cxCreateFailed.task.map Task.status = some .FAILED ∧
    isTerminalStatus .FAILED = true ∧
    cxCreateFailed.events = [] := by
  refine ⟨?_, rfl, ?_⟩ <;> decide


theorem setAdd_mem (l : List String) (k x : String) : x ∈ setAdd l k ↔ x ∈ l ∨ x = k := by
  unfold setAdd
  by_cases hk : k ∈ l
  · simp only [hk, if_true]
    constructor
    · exact Or.inl
    · rintro (h | h)
      · exact h
      · exact h ▸ hk
  · simp [hk]

theorem refreshStep_healthy (now : Nat) (st : LBState) (rs : RegServer) :
    (refreshStep now st rs).healthyServers = setAdd st.healthyServers rs.id := by
  simp only [refreshStep]
  split <;> rfl

theorem rebalanceStep_healthy (st : LBState) (rs : RegServer) :
    (rebalanceStep st rs).healthyServers = setAdd st.healthyServers rs.id := by
  simp only [rebalanceStep]
  cases alGet st.serverMetrics rs.id <;> rfl

theorem foldl_setAdd_healthy (step : LBState → RegServer → LBState)
    (hstep : ∀ st r, (step st r).healthyServers = setAdd st.healthyServers r.id)
    (rs : List RegServer) :
    ∀ (st : LBState) (x : String),
      x ∈ (rs.foldl step st).healthyServers →
      x ∈ st.healthyServers ∨ x ∈ rs.map RegServer.id := by
  induction rs with
  | nil =>
    intro st x h
    exact Or.inl h
  | cons a as ih =>
    intro st x h
    rw [List.foldl_cons] at h
    rcases ih (step st a) x h with h2 | h2
    · rw [hstep st a] at h2
      rcases (setAdd_mem _ _ _).mp h2 with h3 | h3
      · exact Or.inl h3
      · exact Or.inr (by simp [h3])
    · exact Or.inr (by simp [h2])

theorem refresh_healthy_sub (regServers : List RegServer) (now : Nat) (lb : LBState)
    (x : String) (h : x ∈ (refreshServerList regServers now lb).healthyServers) :
    x ∈ regServers.map RegServer.id := by
  unfold refreshServerList at h
  rcases foldl_setAdd_healthy (refreshStep now) (refreshStep_healthy now) regServers
    { lb with healthyServers := [] } x h with h2 | h2
  · simp at h2
  · exact h2

theorem rebalance_healthy_sub (regServers : List RegServer) (lb : LBState)
    (x : String) (h : x ∈ (rebalance regServers lb).healthyServers) :
    x ∈ regServers.map RegServer.id := by
  unfold rebalance at h
  rcases foldl_setAdd_healthy rebalanceStep rebalanceStep_healthy regServers
    { lb with healthyServers := [] } x h with h2 | h2
  · simp at h2
  · exact h2

theorem getOnline_ids_sub (r : RegistryState) (now : Nat) (x : String)
    (h : x ∈ (getOnlineServers r now).map RegServer.id) : x ∈ registeredIds r := by
  unfold getOnlineServers at h
  unfold registeredIds
  simp only [List.map_map, List.mem_map, Function.comp] at h
  obtain ⟨p, hp, hid⟩ := h
  exact List.mem_map.mpr ⟨p, (List.mem_filter.mp hp).1, hid⟩

/-- C5 (amended).  Right after refreshServerList or rebalance the healthy
set only contains ids registered in the ServerRegistry; the original claim
fails because updateServerMetrics adds an id to the healthy set without
checking registration (see the counterexample). -/
theorem healthy_subset_registered :
    (∀ r lb now now2 x,
        x ∈ (refreshServerList (getOnlineServers r now) now2 lb).healthyServers →
        x ∈ registeredIds r)
    ∧ (∀ r lb now x,
        x ∈ (rebalance (getOnlineServers r now) lb).healthyServers →
        x ∈ registeredIds r) := by
  constructor
  · intro r lb now now2 x h
    exact getOnline_ids_sub r now x (refresh_healthy_sub _ now2 lb x h)
  · intro r lb now x h
    exact getOnline_ids_sub r now x (rebalance_healthy_sub _ lb x h)

def cwReg5 : RegistryState := { servers := [("a", {})] }

/-- Witness for the amended C5 theorem: a concrete registered online server
lands in the healthy set after a refresh and is indeed registered. -/
theorem healthy_subset_registered_witness :
    "a" ∈ (refreshServerList (getOnlineServers cwReg5 0) 0 {}).healthyServers ∧
    "a" ∈ registeredIds cwReg5 :=
  ⟨by decide, healthy_subset_registered.1 cwReg5 {} 0 0 "a" (by decide)⟩

/-- C5 counterexample: updateServerMetrics with a healthy metrics snapshot
inserts the given id into the healthy set even though the registry is
empty, so the healthy set is not always a subset of the registered set. -/
theorem updateServerMetrics_unregistered :
    "x" ∈ (updateServerMetrics "x" { healthy := true } 0 {}).healthyServers ∧
    registeredIds {} = [] := by
  constructor
  · decide
  · rfl


theorem headD_mem (l : List String) (h : l ≠ []) : l.headD "" ∈ l := by
  cases l with
  | nil => exact absurd rfl h
  | cons a as => exact List.mem_cons_self a as

theorem weightedListOf_sub (lb : LBState) (servers : List String) (x : String)
    (h : x ∈ weightedListOf lb servers) : x ∈ servers := by
  unfold weightedListOf at h
  obtain ⟨sid, hsid, hx⟩ := List.mem_flatMap.mp h
  rw [List.eq_of_mem_replicate hx]
  exact hsid

theorem wrrSelect_mem (lb : LBState) (servers : List String) (h : servers ≠ []) :
    (weightedRoundRobinSelect lb servers).2 ∈ servers := by
  simp only [weightedRoundRobinSelect]
  by_cases hw : weightedListOf lb servers = []
  · rw [if_pos hw]
    exact headD_mem servers h
  · rw [if_neg hw]
    apply weightedListOf_sub lb servers
    have hlt : (lb.roundRobinIndex + 1) % (weightedListOf lb servers).length <
        (weightedListOf lb servers).length :=
      Nat.mod_lt _ (List.length_pos.mpr hw)
    rw [List.getD_eq_getElem _ _ hlt]
    exact List.getElem_mem hlt

theorem foldl_pick_mem {β : Type} (f : Option β × String → String → Option β × String)
    (hf : ∀ acc x, (f acc x).2 = acc.2 ∨ (f acc x).2 = x) (l : List String) :
    ∀ acc : Option β × String, (l.foldl f acc).2 = acc.2 ∨ (l.foldl f acc).2 ∈ l := by
  induction l with
  | nil =>
    intro acc
    exact Or.inl (by trivial)
  | cons a as ih =>
    intro acc
    rw [List.foldl_cons]
    rcases ih (f acc a) with h | h
    · rcases hf acc a with h2 | h2
      · exact Or.inl (h.trans h2)
      · exact Or.inr (by rw [h, h2]; exact List.mem_cons_self a as)
    · exact Or.inr (List.mem_cons_of_mem a h)

theorem lcSelect_mem (lb : LBState) (servers : List String) (h : servers ≠ []) :
    leastConnectionsSelect lb servers ∈ servers := by
  unfold leastConnectionsSelect
  have hf : ∀ (acc : Option Nat × String) (x : String),
      ((fun (acc : Option Nat × String) sid =>
        let load := (alGet lb.serverLoads sid).getD 0
        match acc.1 with
        | none => (some load, sid)
        | some m => if load < m then (some load, sid) else acc) acc x).2 = acc.2 ∨
      ((fun (acc : Option Nat × String) sid =>
        let load := (alGet lb.serverLoads sid).getD 0
        match acc.1 with
        | none => (some load, sid)
        | some m => if load < m then (some load, sid) else acc) acc x).2 = x := by
    intro acc x
    cases h1 : acc.1 with
    | none => exact Or.inr (by simp [h1])
    | some m =>
      simp only [h1]
      split
      · exact Or.inr rfl
      · exact Or.inl (by trivial)
  rcases foldl_pick_mem _ hf servers ((none : Option Nat), servers.headD "") with h2 | h2
  · rw [h2]
    exact headD_mem servers h
  · exact h2

theorem rtSelect_mem (lb : LBState) (servers : List String) (h : servers ≠ []) :
    responseTimeSelect lb servers ∈ servers := by
  unfold responseTimeSelect
  have hf : ∀ (acc : Option Rat × String) (x : String),
      ((fun (acc : Option Rat × String) sid =>
        let rt : Option Rat :=
          match alGet lb.serverMetrics sid with
          | none => none
          | some m => if m.averageResponseTime = 0 then none else some m.averageResponseTime
        match acc.1, rt with
        | _, none => acc
        | none, some r => (some r, sid)
        | some mn, some r => if r < mn then (some r, sid) else acc) acc x).2 = acc.2 ∨
      ((fun (acc : Option Rat × String) sid =>
        let rt : Option Rat :=
          match alGet lb.serverMetrics sid with
          | none => none
          | some m => if m.averageResponseTime = 0 then none else some m.averageResponseTime
        match acc.1, rt with
        | _, none => acc
        | none, some r => (some r, sid)
        | some mn, some r => if r < mn then (some r, sid) else acc) acc x).2 = x := by
    intro acc x
    simp only []
    cases hrt : (match alGet lb.serverMetrics x with
        | none => (none : Option Rat)
        | some m => if m.averageResponseTime = 0 then none else some m.averageResponseTime) with
    | none =>
      cases h1 : acc.1 <;> simp [h1, hrt]
    | some r =>
      cases h1 : acc.1 with
      | none => exact Or.inr (by simp [h1, hrt])
      | some mn =>
        simp only [h1, hrt]
        split
        · exact Or.inr rfl
        · exact Or.inl (by trivial)
  rcases foldl_pick_mem _ hf servers ((none : Option Rat), servers.headD "") with h2 | h2
  · rw [h2]
    exact headD_mem servers h
  · exact h2

theorem randomSelect_mem (servers : List String) (rand : Nat) (h : servers ≠ []) :
    randomSelect servers rand ∈ servers := by
  unfold randomSelect
  have hlt : rand % servers.length < servers.length :=
    Nat.mod_lt _ (List.length_pos.mpr h)
  rw [List.getD_eq_getElem _ _ hlt]
  exact List.getElem_mem hlt

theorem dispatch_mem (lb : LBState) (avail : List String) (rand : Nat) (h : avail ≠ []) :
    (dispatchAlgorithm lb avail rand).2 ∈ avail := by
  unfold dispatchAlgorithm
  cases lb.algorithm with
  | weightedRoundRobin => exact wrrSelect_mem lb avail h
  | leastConnections => exact lcSelect_mem lb avail h
  | responseTime => exact rtSelect_mem lb avail h
  | roundRobin => exact randomSelect_mem avail rand h
  | random => exact randomSelect_mem avail rand h

theorem dispatch_state (lb : LBState) (avail : List String) (rand : Nat) :
    (dispatchAlgorithm lb avail rand).1.healthyServers = lb.healthyServers ∧
    (dispatchAlgorithm lb avail rand).1.serverMetrics = lb.serverMetrics := by
  unfold dispatchAlgorithm
  cases lb.algorithm with
  | weightedRoundRobin =>
    simp only [weightedRoundRobinSelect]
    split
    · exact ⟨rfl, rfl⟩
    · exact ⟨rfl, rfl⟩
  | leastConnections => exact ⟨rfl, rfl⟩
  | responseTime => exact ⟨rfl, rfl⟩
  | roundRobin => exact ⟨rfl, rfl⟩
  | random => exact ⟨rfl, rfl⟩

theorem available_mem (lb : LBState) (criteria : SelectionCriteria) (sid : String)
    (h : sid ∈ availableServers lb criteria) :
    sid ∈ lb.healthyServers ∧ serverAvailable lb criteria sid = true :=
  ⟨(List.mem_filter.mp h).1, (List.mem_filter.mp h).2⟩

theorem serverAvailable_spec (lb : LBState) (criteria : SelectionCriteria) (sid : String)
    (h : serverAvailable lb criteria sid = true) :
    ∃ m, alGet lb.serverMetrics sid = some m ∧
      m.activeTasks < m.maxCapacity ∧
      ∀ req, criteria.requiredCapabilities = some req →
        ∀ cp ∈ req, cp ∈ m.capabilities.getD [] := by
  unfold serverAvailable at h
  cases hm : alGet lb.serverMetrics sid with
  | none =>
    simp only [hm] at h
    exact absurd h (by simp)
  | some m =>
    simp only [hm] at h
    by_cases hcap : m.maxCapacity ≤ m.activeTasks
    · rw [if_pos hcap] at h
      exact absurd h (by simp)
    · rw [if_neg hcap] at h
      refine ⟨m, rfl, Nat.not_le.mp hcap, ?_⟩
      intro req hreq cp hcp
      unfold capabilityOk at h
      rw [hreq] at h
      have hall := (List.all_eq_true.mp h) cp hcp
      cases hc : m.capabilities with
      | none =>
        rw [hc] at hall
        simp at hall
      | some caps =>
        rw [hc] at hall
        simp only [hc, Option.getD_some]
        simpa using hall

/-- C3.  Whenever selectServer returns a server id, that id is in the
resulting healthy set, its cached metrics exist with an active-task count
strictly below its max capacity, and its cached capability list contains
every required capability of the criteria. -/
theorem selectServer_sound (criteria : SelectionCriteria) (regServers : List RegServer)
    (now rand : Nat) (lb lb2 : LBState) (sid : String)
    (h : selectServer criteria regServers now rand lb = (lb2, some sid)) :
    sid ∈ lb2.healthyServers ∧
    ∃ m, alGet lb2.serverMetrics sid = some m ∧
      m.activeTasks < m.maxCapacity ∧
      ∀ req, criteria.requiredCapabilities = some req →
        ∀ cp ∈ req, cp ∈ m.capabilities.getD [] := by
  simp only [selectServer] at h
  by_cases hav : availableServers (refreshServerList regServers now lb) criteria = []
  · simp [hav] at h
  · rw [if_neg hav, Prod.mk.injEq, Option.some.injEq] at h
    obtain ⟨hlb2, hsid⟩ := h
    subst hlb2
    subst hsid
    have hmem := dispatch_mem (refreshServerList regServers now lb)
      (availableServers (refreshServerList regServers now lb) criteria) rand hav
    obtain ⟨hh, hm⟩ := dispatch_state (refreshServerList regServers now lb)
      (availableServers (refreshServerList regServers now lb) criteria) rand
    obtain ⟨hhealthy, hava⟩ := available_mem _ _ _ hmem
    constructor
    · show (dispatchAlgorithm _ _ _).2 ∈ (dispatchAlgorithm _ _ _).1.healthyServers
      rw [hh]
      exact hhealthy
    · obtain ⟨m, hm1, hm2, hm3⟩ := serverAvailable_spec _ _ _ hava
      refine ⟨m, ?_, hm2, hm3⟩
      show alGet (dispatchAlgorithm _ _ _).1.serverMetrics _ = some m
      rw [hm]
      exact hm1

def cwLB3 : LBState := { algorithm := .leastConnections }

def cwRegs3 : List RegServer := [{ id := "A" }]

/-- Witness for the C3 theorem at a concrete one-server selection. -/
theorem selectServer_sound_witness :
    selectServer {} cwRegs3 0 0 cwLB3 = ((selectServer {} cwRegs3 0 0 cwLB3).1, some "A") ∧
    ("A" ∈ (selectServer {} cwRegs3 0 0 cwLB3).1.healthyServers ∧
      ∃ m, alGet (selectServer {} cwRegs3 0 0 cwLB3).1.serverMetrics "A" = some m ∧
        m.activeTasks < m.maxCapacity ∧
        ∀ req, ({} : SelectionCriteria).requiredCapabilities = some req →
          ∀ cp ∈ req, cp ∈ m.capabilities.getD []) :=
  ⟨by decide,
   selectServer_sound {} cwRegs3 0 0 cwLB3 (selectServer {} cwRegs3 0 0 cwLB3).1 "A"
     (by decide)⟩

theorem refreshStep_misc (now : Nat) (st : LBState) (rs : RegServer) :
    (refreshStep now st rs).algorithm = st.algorithm ∧
    (refreshStep now st rs).roundRobinIndex = st.roundRobinIndex := by
  simp only [refreshStep]
  split
  · exact ⟨rfl, rfl⟩
  · exact ⟨rfl, rfl⟩

theorem foldl_refresh_misc (now : Nat) (rs : List RegServer) :
    ∀ st : LBState, (rs.foldl (refreshStep now) st).algorithm = st.algorithm ∧
      (rs.foldl (refreshStep now) st).roundRobinIndex = st.roundRobinIndex := by
  induction rs with
  | nil =>
    intro st
    exact ⟨rfl, rfl⟩
  | cons a as ih =>
    intro st
    rw [List.foldl_cons]
    obtain ⟨h1, h2⟩ := ih (refreshStep now st a)
    obtain ⟨g1, g2⟩ := refreshStep_misc now st a
    exact ⟨h1.trans g1, h2.trans g2⟩

theorem refresh_misc (regServers : List RegServer) (now : Nat) (lb : LBState) :
    (refreshServerList regServers now lb).algorithm = lb.algorithm ∧
    (refreshServerList regServers now lb).roundRobinIndex = lb.roundRobinIndex := by
  unfold refreshServerList
  exact foldl_refresh_misc now regServers { lb with healthyServers := [] }

/-- C6 (amended).  Under the round-robin algorithm selectServer falls into
the default branch of the algorithm switch and performs a uniform random
selection over the filtered candidates; the round-robin cursor is not
consulted and not advanced, so successive selections are driven by the
random input rather than by a deterministic cursor. -/
theorem roundRobin_is_random (criteria : SelectionCriteria) (regServers : List RegServer)
    (now rand : Nat) (lb : LBState) (halg : lb.algorithm = .roundRobin)
    (hne : availableServers (refreshServerList regServers now lb) criteria ≠ []) :
    (selectServer criteria regServers now rand lb).2 =
      some (randomSelect (availableServers (refreshServerList regServers now lb) criteria) rand)
    ∧ (selectServer criteria regServers now rand lb).1.roundRobinIndex = lb.roundRobinIndex := by
  have halg1 : (refreshServerList regServers now lb).algorithm = .roundRobin :=
    (refresh_misc regServers now lb).1.trans halg
  simp only [selectServer]
  rw [if_neg hne]
  unfold dispatchAlgorithm
  rw [halg1]
  exact ⟨rfl, (refresh_misc regServers now lb).2⟩

def cxRegsAB : List RegServer := [{ id := "A" }, { id := "B" }]

def cxLB6 : LBState := { algorithm := .roundRobin }

/-- C6 counterexample: with the round-robin algorithm two selections from
the identical LoadBalancer state return different servers depending only
on the random draw, and the cursor stays untouched, so selection does not
deterministically cycle through the candidates via a cursor. -/
theorem roundRobin_not_cursor :
    cxLB6.algorithm = .roundRobin ∧
    (selectServer {} cxRegsAB 0 0 cxLB6).2 = some "A" ∧
    (selectServer {} cxRegsAB 0 1 cxLB6).2 = some "B" ∧
    (selectServer {} cxRegsAB 0 0 cxLB6).1.roundRobinIndex = cxLB6.roundRobinIndex := by
  refine ⟨rfl, ?_, ?_, ?_⟩ <;> decide

/-- Witness for the amended C6 theorem at a concrete two-server state. -/
theorem roundRobin_is_random_witness :
    (cxLB6.algorithm = .roundRobin ∧
      availableServers (refreshServerList cxRegsAB 0 cxLB6) {} ≠ []) ∧
    ((selectServer {} cxRegsAB 0 1 cxLB6).2 =
      some (randomSelect (availableServers (refreshServerList cxRegsAB 0 cxLB6) {}) 1) ∧
     (selectServer {} cxRegsAB 0 1 cxLB6).1.roundRobinIndex = cxLB6.roundRobinIndex) :=
  ⟨⟨rfl, by decide⟩, roundRobin_is_random {} cxRegsAB 0 1 cxLB6 rfl (by decide)⟩

theorem jsOrInt_one (w : Int) (h0 : 0 ≤ w) : jsOrInt w 1 = max 1 w := by

  unfold jsOrInt
  by_cases hw : w = 0
  · simp [hw]
  · have h1 : (1:Int) ≤ w := by omega
    simp [hw, max_eq_right h1]

/-- C7 (amended).  In the weighted-round-robin expanded list every
candidate occurrence contributes max(1, weight) copies: the `weight || 1`
fallback turns a weight of 0 into one copy, so weight 0 does not exclude
the server (see the counterexample for a selection of a weight-0 server
while a positive-weight candidate exists). -/
theorem weighted_list_count (lb : LBState) (servers : List String) (sid : String) (w : Int)
    (hw : alGet lb.serverWeights sid = some w) (h0 : 0 ≤ w) :
    (weightedListOf lb servers).count sid = servers.count sid * (max 1 w).toNat := by
  unfold weightedListOf
  induction servers with
  | nil => simp
  | cons a as ih =>
    rw [List.flatMap_cons, List.count_append, ih, List.count_cons]
    by_cases ha : a = sid
    · subst ha
      have hwa : weightOf lb a = max 1 w := by
        unfold weightOf
        rw [hw]
        exact jsOrInt_one w h0
      rw [hwa, List.count_replicate]
      simp only [beq_self_eq_true, if_true]
      ring
    · have hne : (a == sid) = false := beq_eq_false_iff_ne.mpr ha
      rw [List.count_replicate, hne]
      simp

def cxLB7 : LBState :=
  { algorithm := .weightedRoundRobin
    serverWeights := [("A", 0), ("B", 2)]
    roundRobinIndex := 2 }

/-- C7 counterexample: under weighted-round-robin a candidate with weight 0
is selected although the other candidate has weight 2 greater than 0. -/
theorem weightZero_selected :
    alGet cxLB7.serverWeights "A" = some 0 ∧
    alGet cxLB7.serverWeights "B" = some 2 ∧
    (selectServer {} cxRegsAB 0 0 cxLB7).2 = some "A" := by
  refine ⟨rfl, rfl, ?_⟩
  decide

def cwLB7 : LBState := { serverWeights := [("A", 0)] }

/-- Witness for the amended C7 theorem: a weight-0 server contributes one
copy to the expanded list. -/
theorem weighted_list_count_witness :
    alGet cwLB7.serverWeights "A" = some 0 ∧ (0:Int) ≤ 0 ∧
    (weightedListOf cwLB7 ["A", "B"]).count "A" =
      (["A", "B"].count "A") * (max 1 (0:Int)).toNat :=
  ⟨rfl, le_refl 0, weighted_list_count cwLB7 ["A", "B"] "A" 0 rfl (le_refl 0)⟩


theorem jsRound_eq_floor (q : Rat) : jsRound q = ⌊q + 1/2⌋ := by
  unfold jsRound
  rw [Rat.floor_def', Rat.floor_def]

theorem jsRound_mono {a b : Rat} (h : a ≤ b) : jsRound a ≤ jsRound b := by
  rw [jsRound_eq_floor, jsRound_eq_floor]
  exact Int.floor_le_floor (by linarith)

theorem jsOrRat_zero (a : Rat) : jsOrRat a 0 = a := by
  unfold jsOrRat
  by_cases h : a = 0 <;> simp [h]

/-- C8 (amended).  The recomputed weight equals the claimed formula
round((successRate x 10 + max(0, 10 - avgRt/1000)) / 2) whenever the
average response time is nonzero (a zero or missing value is read through
the || fallback as 10000 ms, making the response component 0); for
positive response times the weight is antitone in response time, and for
any fixed response time it is monotone in success rate. -/
theorem calculateWeight_props :
    (∀ m : ServerMetrics, m.averageResponseTime ≠ 0 →
        calculateWeight m = calculateWeightSpec m.successRate m.averageResponseTime)
    ∧ (∀ m m2 : ServerMetrics, m.successRate = m2.successRate →
        0 < m.averageResponseTime → m.averageResponseTime ≤ m2.averageResponseTime →
        calculateWeight m2 ≤ calculateWeight m)
    ∧ (∀ m m2 : ServerMetrics, m.averageResponseTime = m2.averageResponseTime →
        m.successRate ≤ m2.successRate → calculateWeight m ≤ calculateWeight m2) := by
  have hw : ∀ m : ServerMetrics, m.averageResponseTime ≠ 0 →
      calculateWeight m = calculateWeightSpec m.successRate m.averageResponseTime := by
    intro m hart
    unfold calculateWeight calculateWeightSpec
    rw [jsOrRat_zero]
    unfold jsOrRat
    rw [if_neg hart]
  refine ⟨hw, ?_, ?_⟩
  · intro m m2 hsr h1 h2
    have hm : m.averageResponseTime ≠ 0 := ne_of_gt h1
    have hm2 : m2.averageResponseTime ≠ 0 := ne_of_gt (lt_of_lt_of_le h1 h2)
    rw [hw m hm, hw m2 hm2, hsr]
    unfold calculateWeightSpec
    apply jsRound_mono
    have hdiv : m.averageResponseTime / 1000 ≤ m2.averageResponseTime / 1000 := by
      apply div_le_div_of_nonneg_right h2
      norm_num
    have hmax : max 0 (10 - m2.averageResponseTime / 1000) ≤
        max 0 (10 - m.averageResponseTime / 1000) :=
      max_le_max (le_refl 0) (by linarith)
    linarith
  · intro m m2 hart hsr
    unfold calculateWeight
    rw [hart]
    apply jsRound_mono
    have h1 : jsOrRat m.successRate 0 ≤ jsOrRat m2.successRate 0 := by
      rw [jsOrRat_zero, jsOrRat_zero]
      exact hsr
    linarith

def cxM0 : ServerMetrics := { successRate := 1, averageResponseTime := 0 }

def cxM1 : ServerMetrics := { successRate := 1, averageResponseTime := 1000 }

/-- C8 counterexample: with success rate 1 the code produces weight 5 at an
average response time of 0 ms (the || fallback reads it as 10000 ms) but
weight 10 at 1000 ms; the claimed formula gives 10 at 0 ms, and the jump
from 5 to 10 as the response time grows from 0 to 1000 ms refutes the
claimed monotonicity. -/
theorem calculateWeight_not_spec :
    calculateWeight cxM0 = 5 ∧
    calculateWeightSpec cxM0.successRate cxM0.averageResponseTime = 10 ∧
    calculateWeight cxM1 = 10 ∧
    cxM0.successRate = cxM1.successRate ∧
    cxM0.averageResponseTime < cxM1.averageResponseTime := by
  refine ⟨?_, ?_, ?_, rfl, by norm_num [cxM0, cxM1]⟩
  · rw [show calculateWeight cxM0 =
        jsRound ((jsOrRat (1:Rat) 0 * 10 + max 0 (10 - jsOrRat 0 10000 / 1000)) / 2) from rfl]
    rw [jsRound_eq_floor]
    norm_num [jsOrRat]
  · rw [show calculateWeightSpec cxM0.successRate cxM0.averageResponseTime =
        jsRound (((1:Rat) * 10 + max 0 (10 - 0 / 1000)) / 2) from rfl]
    rw [jsRound_eq_floor]
    norm_num
  · rw [show calculateWeight cxM1 =
        jsRound ((jsOrRat (1:Rat) 0 * 10 + max 0 (10 - jsOrRat 1000 10000 / 1000)) / 2) from rfl]
    rw [jsRound_eq_floor]
    norm_num [jsOrRat]

/-- Witness for the amended C8 theorem: at 1000 ms the code weight equals
the spec formula, and monotonicity holds between 1000 ms and 2000 ms. -/
theorem calculateWeight_props_witness :
    (cxM1.averageResponseTime ≠ 0 ∧
      calculateWeight cxM1 = calculateWeightSpec cxM1.successRate cxM1.averageResponseTime) ∧
    (cxM1.successRate = cxM1.successRate ∧ (0:Rat) < cxM1.averageResponseTime ∧
      cxM1.averageResponseTime ≤ cxM1.averageResponseTime ∧
      calculateWeight cxM1 ≤ calculateWeight cxM1) :=
  ⟨⟨by decide, calculateWeight_props.1 cxM1 (by decide)⟩,
   ⟨rfl, by decide, le_refl _,
    calculateWeight_props.2.1 cxM1 cxM1 rfl (by decide) (le_refl _)⟩⟩


theorem handleHealthSuccess_score (s : SIState) :
    (handleHealthSuccess s).healthScore = min 100 (s.healthScore + 5) := rfl

theorem handleHealthFailure_score (s : SIState) :
    (handleHealthFailure s).healthScore = max 0 (s.healthScore - 10) := rfl

/-- C9.  The health score stays in 0..100 under every operation of a
ServerInstance; a successful health check adds exactly 5 saturating at
100 and a failed one subtracts exactly 10 saturating at 0; initialize,
executeTask, setMaintenanceMode and shutdown never change the score, and
the alarm either leaves it unchanged (no config, or idle shutdown) or
applies exactly the health-check adjustment. -/
theorem health_score_bounds :
    (0 ≤ initialSIState.healthScore ∧ initialSIState.healthScore ≤ 100)
    ∧ (∀ op s, 0 ≤ s.healthScore → s.healthScore ≤ 100 →
        0 ≤ (applySI op s).healthScore ∧ (applySI op s).healthScore ≤ 100)
    ∧ (∀ now s, s.hasConfig = true →
        (applySI (.healthCheck now true) s).healthScore = min 100 (s.healthScore + 5))
    ∧ (∀ now s, s.hasConfig = true →
        (applySI (.healthCheck now false) s).healthScore = max 0 (s.healthScore - 10))
    ∧ (∀ mc now s, (applySI (.initServer mc now) s).healthScore = s.healthScore)
    ∧ (∀ tid now ok dur s,
        (applySI (.executeTask tid now ok dur) s).healthScore = s.healthScore)
    ∧ (∀ en now s, (applySI (.setMaintenanceMode en now) s).healthScore = s.healthScore)
    ∧ (∀ s, (applySI .shutdown s).healthScore = s.healthScore)
    ∧ (∀ now ok s, (applySI (.alarm now ok) s).healthScore = s.healthScore ∨
        (applySI (.alarm now ok) s).healthScore =
          (if ok then min 100 (s.healthScore + 5) else max 0 (s.healthScore - 10))) := by
  have hexec : ∀ tid now ok dur s,
      (applySI (.executeTask tid now ok dur) s).healthScore = s.healthScore := by
    intro tid now ok dur s
    simp only [applySI]
    split_ifs <;> rfl
  have hcheck : ∀ now ok s, (applySI (.healthCheck now ok) s).healthScore = s.healthScore ∨
      (applySI (.healthCheck now ok) s).healthScore =
        (if ok then min 100 (s.healthScore + 5) else max 0 (s.healthScore - 10)) := by
    intro now ok s
    simp only [applySI]
    by_cases hcfg : s.hasConfig = true
    · cases ok with
      | true => exact Or.inr (by simp [hcfg, handleHealthSuccess_score])
      | false => exact Or.inr (by simp [hcfg, handleHealthFailure_score])
    · simp only [hcfg, Bool.false_eq_true, if_false]
      exact Or.inl (by trivial)
  have halarm : ∀ now ok s, (applySI (.alarm now ok) s).healthScore = s.healthScore ∨
      (applySI (.alarm now ok) s).healthScore =
        (if ok then min 100 (s.healthScore + 5) else max 0 (s.healthScore - 10)) := by
    intro now ok s
    simp only [applySI]
    by_cases hcfg : ¬ s.hasConfig = true
    · simp only [hcfg, if_true]
      exact Or.inl (by trivial)
    · simp only [hcfg, if_false]
      by_cases hidle : MAX_IDLE_TIME < now - s.lastActivityTime ∧ s.activeTasks = []
      · simp only [hidle, if_true]
        exact Or.inl (by trivial)
      · simp only [hidle, if_false]
        cases ok with
        | true => exact Or.inr (by simp [handleHealthSuccess_score])
        | false => exact Or.inr (by simp [handleHealthFailure_score])
  refine ⟨⟨by decide, by decide⟩, ?_, ?_, ?_, ?_, hexec, ?_, ?_, halarm⟩
  · intro op s h0 h100
    cases op with
    | initServer mc now => exact ⟨h0, h100⟩
    | executeTask tid now ok dur =>
      rw [hexec tid now ok dur s]
      exact ⟨h0, h100⟩
    | healthCheck now ok =>
      rcases hcheck now ok s with h | h
      · rw [h]
        exact ⟨h0, h100⟩
      · rw [h]
        cases ok <;> constructor <;> simp <;> omega
    | setMaintenanceMode en now => exact ⟨h0, h100⟩
    | shutdown => exact ⟨h0, h100⟩
    | alarm now ok =>
      rcases halarm now ok s with h | h
      · rw [h]
        exact ⟨h0, h100⟩
      · rw [h]
        cases ok <;> constructor <;> simp <;> omega
  · intro now s hcfg
    simp [applySI, hcfg, handleHealthSuccess_score]
  · intro now s hcfg
    simp [applySI, hcfg, handleHealthFailure_score]
  · intro mc now s
    rfl
  · intro en now s
    rfl
  · intro s
    rfl

/-- Witness for the C9 theorem: the bounds are preserved by a concrete
failed health check from the initial state. -/
theorem health_score_bounds_witness :
    ((0:Int) ≤ initialSIState.healthScore ∧ initialSIState.healthScore ≤ 100) ∧
    (0 ≤ (applySI (.healthCheck 0 false) initialSIState).healthScore ∧
      (applySI (.healthCheck 0 false) initialSIState).healthScore ≤ 100) :=
  ⟨⟨by decide, by decide⟩,
   health_score_bounds.2.1 (.healthCheck 0 false) initialSIState (by decide) (by decide)⟩


end Orch
